import Mathlib

/-!
Verification of the Sonia reminder/follow-up engine and health supervisor
(`src/sonia-plugin/index.js`, `src/deploy/sonia-healthcheck-v2.sh`).

The follow-up store (the `follow_ups` SQLite table) is modelled as a list of
rows in table (rowid) order; ids are assigned by `nextId` mirroring
AUTOINCREMENT.  `remind_at` values and the `datetime('now')` value are TEXT
and compared lexicographically, exactly as SQLite compares them in
`remind_at <= datetime('now')`.  Row serialization through the sqlite3 CLI
(`-separator '|'` output and line splitting) is abstracted: the query returns
the rows themselves, with fields assumed free of the separator characters.
External command execution (`runCommand`) either succeeds or fails; a single
`storeUp` flag models reachability of the SQLite store for a run, and a
`Sender` oracle models the success of each `openclaw message send` call.
-/

/-- A row of the `follow_ups` table
(schema in `initDatabase`, src/sonia-plugin/index.js lines 57-67). -/
structure FollowUp where
  id : Nat
  task_id : Option Nat
  contact : String
  channel : String
  message : String
  remind_at : String
  sent : Bool
deriving DecidableEq, Repr

abbrev Db := List FollowUp

/-- `CONFIG.telegram_user` (src/sonia-plugin/index.js line 23). -/
def telegramUser : String := "6116923763"

/-- Next AUTOINCREMENT id: one more than the largest id in the table. -/
def nextId (db : Db) : Nat := (db.map FollowUp.id).foldr max 0 + 1

/-- Delivery oracle: success of each `openclaw message send` invocation,
per channel, as a function of the message. -/
structure Sender where
  telegram : String → Bool
  whatsapp : String → Bool

/-- Result of `sendNotification`: overall success of the returned
`runCommand`, plus the channels actually attempted, in order. -/
structure SendOutcome where
  success : Bool
  attempts : List String
deriving DecidableEq, Repr

/-- `sendNotification(message, channel)` (src/sonia-plugin/index.js lines
136-143): if the channel is 'telegram', try the Telegram send and return on
success; otherwise (any other channel, or Telegram failure) run the
WhatsApp send. -/
def sendNotification (s : Sender) (message : String) (channel : String) : SendOutcome :=
  if channel = "telegram" then
    if s.telegram message then { success := true, attempts := ["telegram"] }
    else { success := s.whatsapp message, attempts := ["telegram", "whatsapp"] }
  else { success := s.whatsapp message, attempts := ["whatsapp"] }

/-- Lexicographic order on character lists: SQLite compares TEXT values
byte-wise (memcmp), which on the ASCII timestamps used here coincides with
this character-wise comparison. -/
def charListLe : List Char → List Char → Bool
  | [], _ => true
  | _ :: _, [] => false
  | a :: as, b :: bs => if a < b then true else if a = b then charListLe as bs else false

/-- SQLite TEXT `<=` on strings. -/
def textLe (a b : String) : Bool := charListLe a.data b.data

/-- SQLite TEXT `<` on strings. -/
def textLt (a b : String) : Bool := textLe a b && !(a == b)

/-- The WHERE predicate of the due query:
`sent=0 AND remind_at <= datetime('now')` (index.js line 776). -/
def dueP (now : String) (r : FollowUp) : Bool :=
  !r.sent && textLe r.remind_at now

/-- `UPDATE follow_ups SET sent=1 WHERE id=i` (index.js line 789). -/
def markSent (db : Db) (i : Nat) : Db :=
  db.map (fun r => if r.id = i then { r with sent := true } else r)

/-- Accumulated state of the per-row loop in `sonia_process_follow_ups`. -/
structure ProcState where
  db : Db
  sends : List (String × String × SendOutcome)
  processed : Nat
deriving DecidableEq, Repr

/-- The `for (const line of lines)` loop of `sonia_process_follow_ups`
(index.js lines 786-791): send the notification, mark the row sent
(regardless of the send outcome), increment the counter. -/
def processLoop (s : Sender) : List FollowUp → ProcState → ProcState
  | [], st => st
  | r :: rest, st =>
    let res := sendNotification s r.message r.channel
    processLoop s rest
      { db := markSent st.db r.id
        sends := st.sends ++ [(r.message, r.channel, res)]
        processed := st.processed + 1 }

/-- Return value of `sonia_process_follow_ups`: either the
'No due follow-ups' early return or 'Processed n follow-ups'. -/
inductive Outcome where
  | noDue
  | processedCount (n : Nat)
deriving DecidableEq, Repr

/-- The count conveyed by the returned message (`noDue` reports nothing
processed). -/
def outcomeCount : Outcome → Nat
  | Outcome.noDue => 0
  | Outcome.processedCount n => n

/-- Full observable result of one `sonia_process_follow_ups` run: its return
value, the final table state, and the `(message, channel, outcome)` of each
`sendNotification` call in the order the calls were made. -/
structure ProcResult where
  outcome : Outcome
  db : Db
  sends : List (String × String × SendOutcome)
deriving DecidableEq, Repr

/-- `sonia_process_follow_ups()` (index.js lines 775-794).  The SELECT has no
ORDER BY and the schema has no index on `remind_at`, so the sqlite3 scan
yields rows in table (rowid) order — the order of `db`.  When the store is
unreachable (`storeUp = false`) the failed `runCommand` has no `output`
field, so `!result.output` takes the same early return as an empty result
and nothing further runs. -/
def sonia_process_follow_ups (s : Sender) (storeUp : Bool) (db : Db) (now : String) :
    ProcResult :=
  let rows := if storeUp then db.filter (dueP now) else []
  if rows.isEmpty then { outcome := Outcome.noDue, db := db, sends := [] }
  else
    let st := processLoop s rows { db := db, sends := [], processed := 0 }
    { outcome := Outcome.processedCount st.processed, db := st.db, sends := st.sends }

/-- Result of `sonia_set_follow_up`: the validation early-return, or success
with the `last_insert_rowid()` of the created row. -/
inductive SetResult where
  | validationError
  | ok (id : Nat)
deriving DecidableEq, Repr

/-- `sonia_set_follow_up({task_id, contact, channel, message, remind_at})`
(index.js lines 729-757).  `!remind_at || !message` (undefined or empty
string) is the validation failure; `channel || 'telegram'` and
`contact || CONFIG.telegram_user` supply defaults; the INSERT omits `sent`,
so the row gets the schema default `sent=0`.  The best-effort `at`-job
registration (lines 745-749) is an OS-level side channel whose failure is
discarded (`|| true`); it does not touch the returned result or the row.
The empty string stands for an absent/falsy JS string argument. -/
def sonia_set_follow_up (db : Db) (task_id : Option Nat)
    (contact channel message remind_at : String) : SetResult × Db :=
  if remind_at = "" ∨ message = "" then (SetResult.validationError, db)
  else
    let followChannel := if channel = "" then "telegram" else channel
    let followContact := if contact = "" then telegramUser else contact
    let i := nextId db
    (SetResult.ok i,
      db ++ [{ id := i, task_id := task_id, contact := followContact,
               channel := followChannel, message := message,
               remind_at := remind_at, sent := false }])

/-- Zero-padded two-digit rendering, as produced inside `toISOString()`. -/
def pad2 (n : Nat) : String := if n < 10 then "0" ++ toString n else toString n

/-- Zero-padded four-digit year rendering, as produced inside
`toISOString()`. -/
def pad4 (n : Nat) : String :=
  if n < 10 then "000" ++ toString n
  else if n < 100 then "00" ++ toString n
  else if n < 1000 then "0" ++ toString n
  else toString n

/-- Days since 1970-01-01 to the proleptic Gregorian (year, month, day) in
UTC, as computed by the JS `Date` getters backing `toISOString()`. -/
def civilFromDays (z0 : Nat) : Nat × Nat × Nat :=
  let z := z0 + 719468
  let era := z / 146097
  let doe := z % 146097
  let yoe := (doe - doe / 1460 + doe / 36524 - doe / 146096) / 365
  let y := yoe + era * 400
  let doy := doe - (365 * yoe + yoe / 4 - yoe / 100)
  let mp := (5 * doy + 2) / 153
  let d := doy - (153 * mp + 2) / 5 + 1
  let m := if mp < 10 then mp + 3 else mp - 9
  (if m ≤ 2 then y + 1 else y, m, d)

/-- `new Date(ms).toISOString().slice(0, 16).replace('T', ' ')`
(index.js lines 806-807): the UTC timestamp at minute precision,
rendered `YYYY-MM-DD HH:MM`. -/
def toISOMinute (ms : Nat) : String :=
  let c := civilFromDays (ms / 86400000)
  pad4 c.1 ++ "-" ++ pad2 c.2.1 ++ "-" ++ pad2 c.2.2 ++ " "
    ++ pad2 (ms % 86400000 / 3600000) ++ ":" ++ pad2 (ms % 86400000 % 3600000 / 60000)

/-- JS truthiness of an optional number (`if (in_minutes)`):
absent and `0` are both falsy. -/
def jsTruthyNat : Option Nat → Bool
  | none => false
  | some n => n != 0

/-- JS truthiness of an optional string (`else if (at_time)`):
absent and the empty string are both falsy. -/
def jsTruthyStr : Option String → Bool
  | none => false
  | some s => s != ""

/-- Result of `sonia_remind_me`: one of its two validation early-returns,
the delegated validation failure of `sonia_set_follow_up`, or success. -/
inductive RemindResult where
  | missingMessage
  | missingTime
  | setInvalid
  | ok (id : Nat)
deriving DecidableEq, Repr

/-- Lift the delegated `sonia_set_follow_up` result. -/
def liftSet : SetResult × Db → RemindResult × Db
  | (SetResult.validationError, d) => (RemindResult.setInvalid, d)
  | (SetResult.ok i, d) => (RemindResult.ok i, d)

/-- `sonia_remind_me({message, in_minutes, at_time})` (index.js lines
799-819): requires a message; if `in_minutes` is truthy, `remind_at` is
now + in_minutes minutes rendered by `toISOMinute`; otherwise if `at_time`
is truthy it is used verbatim; otherwise the time validation fails.  The
delegated call passes only message (with its reminder tag), `remind_at`,
and channel 'telegram'. -/
def sonia_remind_me (nowMs : Nat) (db : Db) (message : String)
    (in_minutes : Option Nat) (at_time : Option String) : RemindResult × Db :=
  if message = "" then (RemindResult.missingMessage, db)
  else if jsTruthyNat in_minutes then
    liftSet (sonia_set_follow_up db none ("") ("telegram")
      ("üîî Reminder: " ++ message) (toISOMinute (nowMs + (in_minutes.getD 0) * 60000)))
  else if jsTruthyStr at_time then
    liftSet (sonia_set_follow_up db none ("") ("telegram")
      ("üîî Reminder: " ++ message) (at_time.getD ""))
  else (RemindResult.missingTime, db)

/-- Ordered insertion used to model `ORDER BY remind_at ASC`. -/
def insertByRemindAt (r : FollowUp) : List FollowUp → List FollowUp
  | [] => [r]
  | x :: xs =>
    if textLe r.remind_at x.remind_at then r :: x :: xs
    else x :: insertByRemindAt r xs

/-- `sonia_list_follow_ups({include_sent})` (index.js lines 762-770):
`SELECT ... WHERE (1=1 | sent=0) ORDER BY remind_at ASC LIMIT 50`.
Read-only: returns rows, mutates nothing. -/
def sonia_list_follow_ups (db : Db) (include_sent : Bool) : List FollowUp :=
  ((if include_sent then db else db.filter (fun r => !r.sent)).foldr
      insertByRemindAt []).take 50

/-- Effect of `sonia_delete_task({task_id})` on the `follow_ups` table
(index.js line 717): `DELETE FROM follow_ups WHERE task_id=tid`.  Rows with
NULL `task_id` never match the equality. -/
def sonia_delete_task_follow_ups (db : Db) (task_id : Nat) : Db :=
  db.filter (fun r => !(r.task_id == some task_id))

/-- Effect of `sonia_update_task` on the `follow_ups` table (index.js lines
685-706): its UPDATE touches only `tasks`, so the follow-up table is
unchanged. -/
def sonia_update_task_follow_ups (db : Db) : Db := db

/-- Modelled from the spec: the processing order the spec prescribes for
`process_due_follow_ups` — due rows "in `remind_at` ascending order
(tie-break by id ascending for determinism)".  The source query has no
ORDER BY; this definition exists only to compare the spec's order with the
code's order. -/
def specInsertDue (r : FollowUp) : List FollowUp → List FollowUp
  | [] => [r]
  | x :: xs =>
    if textLt r.remind_at x.remind_at
        ∨ (r.remind_at = x.remind_at ∧ r.id ≤ x.id) then r :: x :: xs
    else x :: specInsertDue r xs

/-- Modelled from the spec: the due rows sorted by (`remind_at`, id)
ascending, the order §4.1 step 2 of the spec claims deliveries happen in. -/
def specDueOrder (db : Db) (now : String) : List FollowUp :=
  (db.filter (dueP now)).foldr specInsertDue []

/-!  Health supervisor (`src/deploy/sonia-healthcheck-v2.sh`).

One run of the script is a pure function of the observed world: the outcome
of each probe command, plus the exit status of each remediation command
(which the script discards — every remediation is invoked with its stderr
dropped and its status never inspected). -/

/-- Observed state of the world for one health-check run. -/
structure HealthWorld where
  /-- `docker ps` output matches `unhealthy|Exited` (line 25). -/
  dockerBad : Bool
  /-- CDP `/json/version` response contains `Browser` (line 35). -/
  chromeOk : Bool
  /-- `pgrep -f openclaw` finds a process (line 46). -/
  openclawRunning : Bool
  /-- telegram line of `openclaw channels status` matches
  `enabled|configured|OK` (line 58). -/
  telegramOk : Bool
  /-- whatsapp line matches `connected|linked|OK` (line 68). -/
  whatsappOk : Bool
  /-- `himalaya account list` mentions sonia (line 77). -/
  emailOk : Bool
  /-- root filesystem use percentage (line 85). -/
  diskPct : Nat
  /-- available memory in MB (line 97). -/
  memFreeMB : Nat
  /-- `/health` endpoint responds (line 108). -/
  emyApiOk : Bool
  /-- `systemctl is-active nginx` (line 119). -/
  nginxActive : Bool
  /-- `systemctl is-enabled nginx` (line 121). -/
  nginxEnabled : Bool
  /-- exit status of `docker-compose up -d` (line 27) — discarded. -/
  dockerComposeUpOk : Bool
  /-- exit status of `systemctl restart chrome-cdp` (line 39) — discarded. -/
  chromeRestartOk : Bool
  /-- exit status of `systemctl restart openclaw` (line 50) — discarded. -/
  openclawRestartOk : Bool
  /-- exit status of `docker-compose restart app` (line 112) — discarded. -/
  emyRestartOk : Bool
  /-- exit status of `systemctl start nginx` (line 123) — discarded. -/
  nginxStartOk : Bool
deriving DecidableEq, Repr

/-- The `FIXED` string after all probes: each probe with a remediation
appends its tag when its check fails, in script order (lines 23-127).
No remediation exit status is consulted. -/
def healthFixed (w : HealthWorld) : String :=
  (if w.dockerBad then " Docker;" else "")
    ++ (if w.chromeOk then "" else " ChromeCDP;")
    ++ (if w.openclawRunning then "" else " OpenClaw;")
    ++ (if 90 < w.diskPct then " Disk-cleanup;" else "")
    ++ (if w.emyApiOk then "" else " EmyAPI;")
    ++ (if w.nginxActive then "" else if w.nginxEnabled then " Nginx;" else "")

/-- The `ISSUES` string after all probes: each probe without a remediation
appends its tag when its check fails, in script order. -/
def healthIssues (w : HealthWorld) : String :=
  (if w.telegramOk then "" else " Telegram;")
    ++ (if w.whatsappOk then "" else " WhatsApp-disconnected;")
    ++ (if w.emailOk then "" else " Email-IMAP;")
    ++ (if w.memFreeMB < 100 then " Low-memory;" else "")

/-- The consolidated message (lines 133-135): the report header, then the
auto-fixed part if any, then the needs-attention part if any. -/
def healthMsg (fixed issues : String) : String :=
  let m := "Sonia Health Report"
  let m := if fixed ≠ "" then m ++ " | Auto-fixed: " ++ fixed else m
  if issues ≠ "" then m ++ " | Needs attention: " ++ issues else m

/-- Observable result of one run: the two accumulated lists, the messages
passed to `notify`, and the exit code. -/
structure HealthResult where
  fixed : String
  issues : String
  notes : List String
  exitCode : Nat
deriving DecidableEq, Repr

/-- One run of `sonia-healthcheck-v2.sh` (epilogue lines 129-149): notify
once iff `FIXED` or `ISSUES` is non-empty; exit 1 iff `ISSUES` is non-empty,
else exit 0. -/
def runHealthCheck (w : HealthWorld) : HealthResult :=
  let fixed := healthFixed w
  let issues := healthIssues w
  { fixed := fixed
    issues := issues
    notes := if fixed ≠ "" ∨ issues ≠ "" then [healthMsg fixed issues] else []
    exitCode := if issues ≠ "" then 1 else 0 }

/-! Concrete scenarios used by witnesses and counterexamples. -/

/-- A sender for which every delivery succeeds. -/
def sTrivial : Sender := { telegram := fun _ => true, whatsapp := fun _ => true }

/-- Table-order row 1: due, but with the later `remind_at`. -/
def rowOrd1 : FollowUp :=
  { id := 1, task_id := none, contact := "c", channel := "telegram",
    message := "first-row", remind_at := "2025-01-02 00:00", sent := false }

/-- Table-order row 2: due, with the earlier `remind_at`. -/
def rowOrd2 : FollowUp :=
  { id := 2, task_id := none, contact := "c", channel := "email",
    message := "second-row", remind_at := "2025-01-01 00:00", sent := false }

/-- A table whose rowid order disagrees with `remind_at` order. -/
def dbOrd : Db := [rowOrd1, rowOrd2]

/-- A `datetime('now')` value past both reminders above. -/
def nowOrd : String := "2025-01-03 00:00:00"

/-- Three due follow-ups; the second one's delivery will fail on both
channels. -/
def rowFu1 : FollowUp :=
  { id := 11, task_id := none, contact := "u", channel := "telegram",
    message := "fu-one", remind_at := "2025-03-01 09:00", sent := false }

def rowFu2 : FollowUp :=
  { id := 12, task_id := none, contact := "u", channel := "telegram",
    message := "fu-two", remind_at := "2025-03-01 09:05", sent := false }

def rowFu3 : FollowUp :=
  { id := 13, task_id := none, contact := "u", channel := "whatsapp",
    message := "fu-three", remind_at := "2025-03-01 09:10", sent := false }

def dbThree : Db := [rowFu1, rowFu2, rowFu3]

def nowThree : String := "2025-03-01 10:00:00"

/-- A sender that fails on both channels exactly for the message of
`rowFu2`. -/
def sFailTwo : Sender :=
  { telegram := fun m => !(m == "fu-two"), whatsapp := fun m => !(m == "fu-two") }

/-- A mixed table: one due row, one not yet due, one already sent. -/
def dbMix : Db :=
  [{ id := 1, task_id := none, contact := "u", channel := "telegram",
     message := "due-a", remind_at := "2025-01-01 08:00", sent := false },
   { id := 2, task_id := none, contact := "u", channel := "telegram",
     message := "later", remind_at := "2025-02-01 08:00", sent := false },
   { id := 3, task_id := none, contact := "u", channel := "whatsapp",
     message := "old-sent", remind_at := "2024-12-01 08:00", sent := true }]

def nowMix : String := "2025-01-15 00:00:00"

/-- The first (and only) send of the `dbMix` run. -/
def tMix : String × String × SendOutcome :=
  ("due-a", "telegram", { success := true, attempts := ["telegram"] })

/-- A world where only the Chrome CDP probe fails, and its remediation
command also fails. -/
def wChrome : HealthWorld :=
  { dockerBad := false, chromeOk := false, openclawRunning := true,
    telegramOk := true, whatsappOk := true, emailOk := true, diskPct := 40,
    memFreeMB := 900, emyApiOk := true, nginxActive := true, nginxEnabled := true,
    dockerComposeUpOk := true, chromeRestartOk := false, openclawRestartOk := true,
    emyRestartOk := true, nginxStartOk := true }

/-! Lemmas about the processing loop. -/

theorem processLoop_processed (s : Sender) (L : List FollowUp) (st : ProcState) :
    (processLoop s L st).processed = st.processed + L.length := by
  induction L generalizing st with
  | nil => simp [processLoop]
  | cons r rest ih => simp [processLoop, ih]; omega

theorem processLoop_sends (s : Sender) (L : List FollowUp) (st : ProcState) :
    (processLoop s L st).sends
      = st.sends
          ++ L.map (fun r => (r.message, r.channel, sendNotification s r.message r.channel)) := by
  induction L generalizing st with
  | nil => simp [processLoop]
  | cons r rest ih => simp [processLoop, ih]

theorem processLoop_db (s : Sender) (L : List FollowUp) (st : ProcState) :
    (processLoop s L st).db = L.foldl (fun d r => markSent d r.id) st.db := by
  induction L generalizing st with
  | nil => simp [processLoop]
  | cons r rest ih => simp [processLoop, ih]

theorem foldl_markSent_eq_map (I : List Nat) (db : Db) :
    I.foldl markSent db
      = db.map (fun r => if r.id ∈ I then { r with sent := true } else r) := by
  induction I generalizing db with
  | nil => simp
  | cons i I ih =>
    have hcomp :
        (fun r => if r.id ∈ I then { r with sent := true } else r)
            ∘ (fun r : FollowUp => if r.id = i then { r with sent := true } else r)
          = fun r => if r.id ∈ i :: I then { r with sent := true } else r := by
      funext r
      by_cases h : r.id = i <;> by_cases h2 : r.id ∈ I <;>
        simp [Function.comp, h, h2]
    rw [List.foldl_cons, ih (markSent db i), markSent, List.map_map, hcomp]

theorem process_db_eq (s : Sender) (db : Db) (now : String) :
    (sonia_process_follow_ups s true db now).db
      = db.map (fun r =>
          if r.id ∈ (db.filter (dueP now)).map FollowUp.id
          then { r with sent := true } else r) := by
  by_cases h : (db.filter (dueP now)).isEmpty
  · have hnil : db.filter (dueP now) = [] := by
      rwa [List.isEmpty_iff] at h
    simp [sonia_process_follow_ups, h, hnil]
  · simp only [sonia_process_follow_ups, if_true, h, Bool.false_eq_true,
      if_false, processLoop_db]
    rw [← List.foldl_map (f := FollowUp.id) (g := markSent)]
    exact foldl_markSent_eq_map _ _

theorem process_count_eq (s : Sender) (db : Db) (now : String) :
    outcomeCount (sonia_process_follow_ups s true db now).outcome
      = (db.filter (dueP now)).length := by
  by_cases h : (db.filter (dueP now)).isEmpty
  · have hnil : db.filter (dueP now) = [] := by
      rwa [List.isEmpty_iff] at h
    simp [sonia_process_follow_ups, h, hnil, outcomeCount]
  · simp [sonia_process_follow_ups, h, outcomeCount, processLoop_processed]

theorem process_sends_eq (s : Sender) (db : Db) (now : String) :
    (sonia_process_follow_ups s true db now).sends
      = (db.filter (dueP now)).map
          (fun r => (r.message, r.channel, sendNotification s r.message r.channel)) := by
  by_cases h : (db.filter (dueP now)).isEmpty
  · have hnil : db.filter (dueP now) = [] := by
      rwa [List.isEmpty_iff] at h
    simp [sonia_process_follow_ups, h, hnil]
  · simp [sonia_process_follow_ups, h, processLoop_sends]

theorem process_store_down (s : Sender) (db : Db) (now : String) :
    sonia_process_follow_ups s false db now
      = { outcome := Outcome.noDue, db := db, sends := [] } := rfl

theorem mem_due_ids (db : Db) (now : String)
    (hnd : (db.map FollowUp.id).Nodup) (r : FollowUp) (hr : r ∈ db) :
    r.id ∈ (db.filter (dueP now)).map FollowUp.id ↔ dueP now r = true := by
  constructor
  · intro h
    obtain ⟨r', hr', hid⟩ := List.mem_map.mp h
    obtain ⟨hr'db, hp⟩ := List.mem_filter.mp hr'
    have heq : r' = r := List.inj_on_of_nodup_map hnd hr'db hr hid
    rwa [heq] at hp
  · intro h
    exact List.mem_map.mpr ⟨r, List.mem_filter.mpr ⟨hr, h⟩, rfl⟩

/-! Lemmas about creation, the convenience wrapper, and listing. -/

theorem str_ne_empty_of_length (s : String) (h : 0 < s.length) : s ≠ "" := by
  intro h0
  rw [h0] at h
  exact absurd h (by decide)

theorem length_pos_of_mid (x y : String) : 0 < (x ++ ":" ++ y).length := by
  rw [String.length_append, String.length_append]
  have h : (":" : String).length = 1 := rfl
  omega

theorem toISOMinute_ne_empty (ms : Nat) : toISOMinute ms ≠ "" := by
  apply str_ne_empty_of_length
  simp only [toISOMinute]
  exact length_pos_of_mid _ _

theorem tag_append_ne_empty (m : String) : ("üîî Reminder: " ++ m) ≠ "" := by
  intro h
  have hlen := congrArg String.length h
  rw [String.length_append] at hlen
  have htag : 0 < ("üîî Reminder: " : String).length := by decide
  have hz : ("" : String).length = 0 := rfl
  rw [hz] at hlen
  omega

theorem set_follow_up_ok (db : Db) (tid : Option Nat) (c ch m ra : String)
    (hra : ra ≠ "") (hm : m ≠ "") :
    sonia_set_follow_up db tid c ch m ra
      = (SetResult.ok (nextId db),
         db ++ [{ id := nextId db, task_id := tid,
                  contact := if c = "" then telegramUser else c,
                  channel := if ch = "" then "telegram" else ch,
                  message := m, remind_at := ra, sent := false }]) := by
  simp only [sonia_set_follow_up]
  rw [if_neg (not_or.mpr ⟨hra, hm⟩)]

theorem set_follow_up_ok_remind (db : Db) (m ra : String)
    (hra : ra ≠ "") (hm : m ≠ "") :
    sonia_set_follow_up db none ("") ("telegram") m ra
      = (SetResult.ok (nextId db),
         db ++ [{ id := nextId db, task_id := none, contact := telegramUser,
                  channel := "telegram", message := m, remind_at := ra,
                  sent := false }]) := by
  have hc : (if ("" : String) = "" then telegramUser else "") = telegramUser := if_pos rfl
  have hch : (if ("telegram" : String) = "" then "telegram" else "telegram") = "telegram" := by
    rw [if_neg (by decide)]
  rw [set_follow_up_ok db none ("") ("telegram") m ra hra hm, hc, hch]

theorem liftSet_snd (p : SetResult × Db) : (liftSet p).2 = p.2 := by
  obtain ⟨a, b⟩ := p
  cases a <;> rfl

theorem set_db_shape (db : Db) (tid : Option Nat) (c ch m ra : String) :
    (sonia_set_follow_up db tid c ch m ra).2 = db
    ∨ ∃ row, (sonia_set_follow_up db tid c ch m ra).2 = db ++ [row]
        ∧ row.sent = false := by
  by_cases h : ra = "" ∨ m = ""
  · left
    simp [sonia_set_follow_up, h]
  · obtain ⟨h1, h2⟩ := not_or.mp h
    right
    rw [set_follow_up_ok db tid c ch m ra h1 h2]
    exact ⟨_, rfl, rfl⟩

theorem jsTruthyStr_getD (t : Option String) (h : jsTruthyStr t = true) :
    t.getD "" ≠ "" := by
  cases t with
  | none => simp [jsTruthyStr] at h
  | some s => simpa [jsTruthyStr] using h

theorem remind_db_shape (db : Db) (nowMs : Nat) (m : String)
    (mi : Option Nat) (t : Option String) :
    (sonia_remind_me nowMs db m mi t).2 = db
    ∨ ∃ row, (sonia_remind_me nowMs db m mi t).2 = db ++ [row]
        ∧ row.sent = false := by
  by_cases h0 : m = ""
  · left; simp [sonia_remind_me, h0]
  · by_cases h1 : jsTruthyNat mi = true
    · rcases set_db_shape db none ("") ("telegram") ("üîî Reminder: " ++ m)
          (toISOMinute (nowMs + (mi.getD 0) * 60000)) with h | ⟨row, hrow, hs⟩
      · left; simp [sonia_remind_me, h0, h1, liftSet_snd, h]
      · right; exact ⟨row, by simp [sonia_remind_me, h0, h1, liftSet_snd, hrow], hs⟩
    · by_cases h2 : jsTruthyStr t = true
      · rcases set_db_shape db none ("") ("telegram") ("üîî Reminder: " ++ m)
            (t.getD "") with h | ⟨row, hrow, hs⟩
        · left; simp [sonia_remind_me, h0, h1, h2, liftSet_snd, h]
        · right; exact ⟨row, by simp [sonia_remind_me, h0, h1, h2, liftSet_snd, hrow], hs⟩
      · left; simp [sonia_remind_me, h0, h1, h2]

theorem forall₂_sentMono_map (db : Db) (f : FollowUp → FollowUp)
    (hf : ∀ r, f r = r ∨ f r = { r with sent := true }) :
    List.Forall₂ (fun a b => b = a ∨ b = { a with sent := true }) db (db.map f) := by
  induction db with
  | nil => simp
  | cons r rest ih =>
    rw [List.map_cons]
    exact List.Forall₂.cons (hf r) ih

theorem mem_insertByRemindAt (a r : FollowUp) (l : List FollowUp) :
    a ∈ insertByRemindAt r l ↔ a = r ∨ a ∈ l := by
  induction l with
  | nil => simp [insertByRemindAt]
  | cons x xs ih =>
    unfold insertByRemindAt
    by_cases h : textLe r.remind_at x.remind_at = true
    · rw [if_pos h]
      simp
    · rw [if_neg h]
      simp only [List.mem_cons, ih]
      tauto

theorem mem_foldr_insertByRemindAt (a : FollowUp) (l : List FollowUp) :
    a ∈ l.foldr insertByRemindAt [] ↔ a ∈ l := by
  induction l with
  | nil => simp
  | cons x xs ih => simp [List.foldr_cons, mem_insertByRemindAt, ih]

theorem list_follow_ups_mem (db : Db) (b : Bool) (a : FollowUp)
    (h : a ∈ sonia_list_follow_ups db b) : a ∈ db := by
  unfold sonia_list_follow_ups at h
  have h2 := List.mem_of_mem_take h
  rw [mem_foldr_insertByRemindAt] at h2
  cases b with
  | false =>
    rw [if_neg (by decide)] at h2
    exact (List.mem_filter.mp h2).1
  | true =>
    rwa [if_pos rfl] at h2

/-! The claims. -/

/-- Claim C1: for every database state (with distinct row ids, as the
PRIMARY KEY guarantees), `sonia_process_follow_ups` sets `sent=true` for
exactly the rows with `sent=false` and `remind_at <= now`, leaves every
other row untouched, and its return value conveys the count of rows so
processed. -/
theorem c1_process_marks_exactly_due (s : Sender) (db : Db) (now : String)
    (hnd : (db.map FollowUp.id).Nodup) :
    (sonia_process_follow_ups s true db now).db
        = db.map (fun r => if dueP now r then { r with sent := true } else r)
    ∧ outcomeCount (sonia_process_follow_ups s true db now).outcome
        = (db.filter (dueP now)).length := by
  refine ⟨?_, process_count_eq s db now⟩
  rw [process_db_eq]
  apply List.map_congr_left
  intro r hr
  by_cases h : dueP now r = true
  · rw [if_pos ((mem_due_ids db now hnd r hr).mpr h), if_pos h]
  · rw [if_neg (fun hm => h ((mem_due_ids db now hnd r hr).mp hm)), if_neg h]

/-- Witness for C1 on a concrete mixed table (one due, one not yet due, one
already sent). -/
theorem c1_witness :
    (dbMix.map FollowUp.id).Nodup
    ∧ ((sonia_process_follow_ups sTrivial true dbMix nowMix).db
          = dbMix.map (fun r => if dueP nowMix r then { r with sent := true } else r)
        ∧ outcomeCount (sonia_process_follow_ups sTrivial true dbMix nowMix).outcome
          = (dbMix.filter (dueP nowMix)).length) :=
  ⟨by decide, c1_process_marks_exactly_due sTrivial dbMix nowMix (by decide)⟩

/-- Claim C2: the delivery outcome never influences the marking or the
count — the table state and return value of `sonia_process_follow_ups` are
identical for any two senders (each row is marked `sent=true` right after
its attempt regardless of outcome, and a failed item neither aborts the
batch nor is dropped from the count).  Concretely, with the 3 due rows of
`dbThree` and the sender `sFailTwo` that fails `rowFu2` on both the
Telegram and the WhatsApp channel, all 3 rows end up sent and the run
reports 3 processed. -/
theorem c2_failure_isolated :
    (∀ (s1 s2 : Sender) (up : Bool) (db : Db) (now : String),
      (sonia_process_follow_ups s1 up db now).db
          = (sonia_process_follow_ups s2 up db now).db
      ∧ (sonia_process_follow_ups s1 up db now).outcome
          = (sonia_process_follow_ups s2 up db now).outcome)
    ∧ sendNotification sFailTwo rowFu2.message rowFu2.channel
        = { success := false, attempts := ["telegram", "whatsapp"] }
    ∧ (sonia_process_follow_ups sFailTwo true dbThree nowThree).outcome
        = Outcome.processedCount 3
    ∧ (sonia_process_follow_ups sFailTwo true dbThree nowThree).db.all
        (fun r => r.sent) = true := by
  refine ⟨?_, by decide, by decide, by decide⟩
  intro s1 s2 up db now
  cases up
  · exact ⟨rfl, rfl⟩
  · refine ⟨by rw [process_db_eq, process_db_eq], ?_⟩
    by_cases h : (db.filter (dueP now)).isEmpty
    · simp [sonia_process_follow_ups, h]
    · simp [sonia_process_follow_ups, h, processLoop_processed]

/-- Counterexample for C3: when the store is unreachable the run returns
the ordinary 'No due follow-ups' outcome — the very same outcome as a
normal run over an empty table — processing zero items, even though two
rows were due; no distinguishable StoreUnavailable error exists. -/
theorem c3_counterexample :
    (sonia_process_follow_ups sTrivial false dbOrd nowOrd).outcome = Outcome.noDue
    ∧ (sonia_process_follow_ups sTrivial false dbOrd nowOrd).db = dbOrd
    ∧ (sonia_process_follow_ups sTrivial false dbOrd nowOrd).sends = []
    ∧ (dbOrd.filter (dueP nowOrd)).length = 2
    ∧ (sonia_process_follow_ups sTrivial true ([] : Db) nowOrd).outcome
        = Outcome.noDue := by
  decide

/-- Claim C3 as amended: when the store is unreachable,
`sonia_process_follow_ups` processes zero items, marks no row sent and
sends nothing — but it reports the normal 'No due follow-ups' success
outcome, indistinguishable from an empty result, rather than any
StoreUnavailable error (the failed query has no output, so
`!result.output` takes the empty-result early return). -/
theorem c3_amended_store_down : ∀ (s : Sender) (db : Db) (now : String),
    sonia_process_follow_ups s false db now
      = { outcome := Outcome.noDue, db := db, sends := [] } :=
  fun _ _ _ => rfl

/-- Claim C4: the `sent` flag is monotone under every operation — the
processor only ever flips rows to `sent=true`; `sonia_set_follow_up` and
`sonia_remind_me` leave existing rows untouched and create any new row
with `sent=false`; task deletion only removes rows; task update leaves the
table unchanged; listing only reads rows; and every delivery the processor
makes is of a row that was `sent=false`. -/
theorem c4_sent_monotone (db : Db) :
    (∀ (s : Sender) (now : String),
        List.Forall₂ (fun a b => b = a ∨ b = { a with sent := true }) db
          (sonia_process_follow_ups s true db now).db)
    ∧ (∀ (tid : Option Nat) (c ch m ra : String),
        (sonia_set_follow_up db tid c ch m ra).2 = db
        ∨ ∃ row, (sonia_set_follow_up db tid c ch m ra).2 = db ++ [row]
            ∧ row.sent = false)
    ∧ (∀ (nowMs : Nat) (m : String) (mi : Option Nat) (t : Option String),
        (sonia_remind_me nowMs db m mi t).2 = db
        ∨ ∃ row, (sonia_remind_me nowMs db m mi t).2 = db ++ [row]
            ∧ row.sent = false)
    ∧ (∀ tid : Nat, List.Sublist (sonia_delete_task_follow_ups db tid) db)
    ∧ sonia_update_task_follow_ups db = db
    ∧ (∀ (b : Bool) (a : FollowUp), a ∈ sonia_list_follow_ups db b → a ∈ db)
    ∧ (∀ (s : Sender) (now : String) (t : String × String × SendOutcome),
        t ∈ (sonia_process_follow_ups s true db now).sends →
        ∃ r, r ∈ db ∧ r.sent = false ∧ t.1 = r.message) := by
  refine ⟨?_, ?_, ?_, ?_, rfl, ?_, ?_⟩
  · intro s now
    rw [process_db_eq]
    apply forall₂_sentMono_map
    intro r
    by_cases h : r.id ∈ (db.filter (dueP now)).map FollowUp.id
    · right; rw [if_pos h]
    · left; rw [if_neg h]
  · intro tid c ch m ra
    exact set_db_shape db tid c ch m ra
  · intro nowMs m mi t
    exact remind_db_shape db nowMs m mi t
  · intro tid
    unfold sonia_delete_task_follow_ups
    exact List.filter_sublist db
  · intro b a h
    exact list_follow_ups_mem db b a h
  · intro s now t ht
    rw [process_sends_eq] at ht
    obtain ⟨r, hr, heq⟩ := List.mem_map.mp ht
    obtain ⟨hrdb, hdp⟩ := List.mem_filter.mp hr
    have hsent : r.sent = false := by
      simp [dueP] at hdp
      exact hdp.1
    exact ⟨r, hrdb, hsent, by rw [← heq]⟩

/-- Witness for C4: the one send of the `dbMix` run comes from its single
unsent due row. -/
theorem c4_witness :
    tMix ∈ (sonia_process_follow_ups sTrivial true dbMix nowMix).sends
    ∧ ∃ r, r ∈ dbMix ∧ r.sent = false ∧ tMix.1 = r.message :=
  ⟨by decide,
    (c4_sent_monotone dbMix).2.2.2.2.2.2 sTrivial nowMix tMix (by decide)⟩

/-- Counterexample for C5: on a table whose rowid order disagrees with
`remind_at` order, the processor's send order is the table order, not the
`remind_at`-ascending (tie-break id) order the claim states — the query has
no ORDER BY. -/
theorem c5_counterexample :
    (sonia_process_follow_ups sTrivial true dbOrd nowOrd).sends.map (fun t => t.1)
      ≠ (specDueOrder dbOrd nowOrd).map FollowUp.message := by
  decide

/-- Claim C5 as amended: `sonia_process_follow_ups` attempts delivery in
the order the store returns the due rows — table (rowid, i.e. insertion)
order, since the SELECT has no ORDER BY — which is deterministic but is
not sorted by `remind_at`. -/
theorem c5_amended_table_order : ∀ (s : Sender) (db : Db) (now : String),
    (sonia_process_follow_ups s true db now).sends
      = (db.filter (dueP now)).map
          (fun r => (r.message, r.channel, sendNotification s r.message r.channel)) :=
  fun s db now => process_sends_eq s db now

/-- Counterexample for C6: with a message and with both `in_minutes` and
`at_time` supplied, `sonia_remind_me` does not fail with a validation
error — it succeeds (using `in_minutes`). -/
theorem c6_counterexample :
    (sonia_remind_me 0 [] ("call client") (some 5) (some ("2025-01-01 09:00"))).1
      = RemindResult.ok 1 := by
  decide

/-- Claim C6 as amended: given a message, `sonia_remind_me` fails with the
time validation error exactly when both time specifications are falsy
(absent, `in_minutes = 0`, or `at_time` empty); whenever at least one is
truthy it succeeds — in particular with both supplied it does not fail,
and a truthy `in_minutes` takes precedence, the created row's `remind_at`
being now + in_minutes minutes rendered by `toISOMinute`. -/
theorem c6_amended_validation :
    ∀ (nowMs : Nat) (db : Db) (message : String) (mins : Option Nat)
      (t : Option String),
    message ≠ "" →
    (((sonia_remind_me nowMs db message mins t).1 = RemindResult.missingTime)
        ↔ (jsTruthyNat mins = false ∧ jsTruthyStr t = false))
    ∧ ((jsTruthyNat mins = true ∨ jsTruthyStr t = true) →
        (sonia_remind_me nowMs db message mins t).1 = RemindResult.ok (nextId db))
    ∧ (jsTruthyNat mins = true →
        (sonia_remind_me nowMs db message mins t).2
          = db ++ [{ id := nextId db, task_id := none, contact := telegramUser,
                     channel := "telegram",
                     message := "üîî Reminder: " ++ message,
                     remind_at := toISOMinute (nowMs + (mins.getD 0) * 60000),
                     sent := false }]) := by
  intro nowMs db message mins t hm
  have key1 : jsTruthyNat mins = true →
      sonia_remind_me nowMs db message mins t
        = (RemindResult.ok (nextId db),
           db ++ [{ id := nextId db, task_id := none, contact := telegramUser,
                    channel := "telegram",
                    message := "üîî Reminder: " ++ message,
                    remind_at := toISOMinute (nowMs + (mins.getD 0) * 60000),
                    sent := false }]) := by
    intro h1
    simp only [sonia_remind_me]
    rw [if_neg hm, if_pos h1,
        set_follow_up_ok_remind db ("üîî Reminder: " ++ message)
          (toISOMinute (nowMs + (mins.getD 0) * 60000))
          (toISOMinute_ne_empty _) (tag_append_ne_empty message)]
    rfl
  have key2 : jsTruthyNat mins = false → jsTruthyStr t = true →
      sonia_remind_me nowMs db message mins t
        = (RemindResult.ok (nextId db),
           db ++ [{ id := nextId db, task_id := none, contact := telegramUser,
                    channel := "telegram",
                    message := "üîî Reminder: " ++ message,
                    remind_at := t.getD "", sent := false }]) := by
    intro h1 h2
    simp only [sonia_remind_me]
    rw [if_neg hm, if_neg (by simp [h1]), if_pos h2,
        set_follow_up_ok_remind db ("üîî Reminder: " ++ message) (t.getD "")
          (jsTruthyStr_getD t h2) (tag_append_ne_empty message)]
    rfl
  have key3 : jsTruthyNat mins = false → jsTruthyStr t = false →
      sonia_remind_me nowMs db message mins t = (RemindResult.missingTime, db) := by
    intro h1 h2
    simp only [sonia_remind_me]
    rw [if_neg hm, if_neg (by simp [h1]), if_neg (by simp [h2])]
  by_cases h1 : jsTruthyNat mins = true
  · rw [key1 h1]
    refine ⟨by simp [h1], fun _ => rfl, fun _ => rfl⟩
  · have h1f : jsTruthyNat mins = false := by
      revert h1; cases jsTruthyNat mins <;> simp
    by_cases h2 : jsTruthyStr t = true
    · rw [key2 h1f h2]
      refine ⟨by simp [h2], fun _ => rfl, fun hc => absurd hc (by simp [h1f])⟩
    · have h2f : jsTruthyStr t = false := by
        revert h2; cases jsTruthyStr t <;> simp
      rw [key3 h1f h2f]
      refine ⟨by simp [h1f, h2f], ?_, fun hc => absurd hc (by simp [h1f])⟩
      intro hor
      rcases hor with hc | hc
      · exact absurd hc (by simp [h1f])
      · exact absurd hc (by simp [h2f])

/-- Witness for C6 (amended) at a concrete call with only `in_minutes`. -/
theorem c6_witness :
    (("call client" : String) ≠ "")
    ∧ (sonia_remind_me 0 [] ("call client") (some 5) none).1
        = RemindResult.ok (nextId ([] : Db)) :=
  ⟨by decide,
    (c6_amended_validation 0 [] ("call client") (some 5) none (by decide)).2.1
      (Or.inl (by decide))⟩

/-- Claim C7: per run of the health-check script, exactly one notification
is composed (summarizing both lists) when the fixed or the needs-attention
accumulator is non-empty and none otherwise, and the exit code is zero
exactly when the needs-attention accumulator is empty — so a fixed-only
run exits as success. -/
theorem c7_notify_and_exit : ∀ w : HealthWorld,
    (runHealthCheck w).notes
        = (if (runHealthCheck w).fixed ≠ "" ∨ (runHealthCheck w).issues ≠ ""
           then [healthMsg (runHealthCheck w).fixed (runHealthCheck w).issues]
           else [])
    ∧ ((runHealthCheck w).exitCode = 0 ↔ (runHealthCheck w).issues = "") := by
  intro w
  refine ⟨rfl, ?_⟩
  show (if healthIssues w ≠ "" then 1 else 0) = 0 ↔ healthIssues w = ""
  by_cases h : healthIssues w = "" <;> simp [h]

/-- Counterexample for C8: in `wChrome` the Chrome CDP probe fails and its
remediation command also fails, yet the service is recorded in the fixed
list, the needs-attention list stays empty, and the run even exits 0 — a
RemediationFailure is reported as fixed, not as needs-attention. -/
theorem c8_counterexample :
    wChrome.chromeOk = false ∧ wChrome.chromeRestartOk = false
    ∧ (runHealthCheck wChrome).fixed = " ChromeCDP;"
    ∧ (runHealthCheck wChrome).issues = ""
    ∧ (runHealthCheck wChrome).exitCode = 0 := by
  decide

/-- Claim C8 as amended: remediation is fire-and-forget — the whole run is
unaffected by the exit status of every remediation command (the script
discards them), and a probe with remediation is appended to the fixed
list whenever its check fails, remediation failure included; such a
failure is never recorded in needs-attention. -/
theorem c8_amended_fire_and_forget :
    ∀ (w : HealthWorld) (b1 b2 b3 b4 b5 : Bool),
    runHealthCheck { w with dockerComposeUpOk := b1, chromeRestartOk := b2,
                            openclawRestartOk := b3, emyRestartOk := b4,
                            nginxStartOk := b5 }
        = runHealthCheck w
    ∧ (w.chromeOk = false →
        ∃ x y, (runHealthCheck w).fixed = x ++ (" ChromeCDP;" ++ y))
    ∧ (w.emyApiOk = false →
        ∃ x y, (runHealthCheck w).fixed = x ++ (" EmyAPI;" ++ y)) := by
  intro w b1 b2 b3 b4 b5
  refine ⟨rfl, ?_, ?_⟩
  · intro h
    refine ⟨(if w.dockerBad then " Docker;" else ""),
        ((if w.openclawRunning then "" else " OpenClaw;")
          ++ ((if 90 < w.diskPct then " Disk-cleanup;" else "")
            ++ ((if w.emyApiOk then "" else " EmyAPI;")
              ++ (if w.nginxActive then ""
                  else if w.nginxEnabled then " Nginx;" else "")))), ?_⟩
    show healthFixed w = _
    rw [healthFixed, h]
    simp [String.append_assoc]
  · intro h
    refine ⟨((if w.dockerBad then " Docker;" else "")
          ++ (if w.chromeOk then "" else " ChromeCDP;")
          ++ (if w.openclawRunning then "" else " OpenClaw;")
          ++ (if 90 < w.diskPct then " Disk-cleanup;" else "")),
        (if w.nginxActive then "" else if w.nginxEnabled then " Nginx;" else ""), ?_⟩
    show healthFixed w = _
    rw [healthFixed, h]
    simp [String.append_assoc]

/-- Witness for C8 (amended) at the concrete world `wChrome`. -/
theorem c8_amended_witness :
    wChrome.chromeOk = false
    ∧ ∃ x y, (runHealthCheck wChrome).fixed = x ++ (" ChromeCDP;" ++ y) :=
  ⟨rfl, (c8_amended_fire_and_forget wChrome true true true true true).2.1 rfl⟩

/-- Claim C9: the stored channel influences routing only when it equals
'telegram' — then the Telegram send is attempted first with a WhatsApp
fallback on failure; any other channel value goes directly and only
through the WhatsApp command.  Every send the follow-up processor makes
goes through this very routing with the row's channel. -/
theorem c9_channel_routing : ∀ (s : Sender) (m c : String),
    (c ≠ "telegram" →
      sendNotification s m c = { success := s.whatsapp m, attempts := ["whatsapp"] })
    ∧ (sendNotification s m ("telegram")
        = if s.telegram m then { success := true, attempts := ["telegram"] }
          else { success := s.whatsapp m, attempts := ["telegram", "whatsapp"] })
    ∧ (∀ (up : Bool) (db : Db) (now : String),
        ∀ t ∈ (sonia_process_follow_ups s up db now).sends,
          t.2.2 = sendNotification s t.1 t.2.1) := by
  intro s m c
  refine ⟨?_, ?_, ?_⟩
  · intro h
    unfold sendNotification
    rw [if_neg h]
  · unfold sendNotification
    rw [if_pos rfl]
  · intro up db now t ht
    cases up with
    | false =>
      rw [process_store_down] at ht
      cases ht
    | true =>
      rw [process_sends_eq] at ht
      obtain ⟨r, _, heq⟩ := List.mem_map.mp ht
      rw [← heq]

/-- Witness for C9: a non-telegram channel ('email') is delivered only via
the WhatsApp command. -/
theorem c9_witness :
    (("email" : String) ≠ "telegram")
    ∧ sendNotification sTrivial ("hello") ("email")
        = { success := sTrivial.whatsapp ("hello"), attempts := ["whatsapp"] } :=
  ⟨by decide, (c9_channel_routing sTrivial ("hello") ("email")).1 (by decide)⟩

/-- Counterexample for C10: with both `in_minutes = 0` and a (truthy)
`at_time` supplied, the call succeeds but `in_minutes` does not take
precedence — `0` is falsy in JS, so `at_time` is stored verbatim and the
created row's `remind_at` is not now + 0 minutes rendered in UTC. -/
theorem c10_counterexample :
    (sonia_remind_me 0 [] ("m") (some 0) (some ("2030-01-01 00:00"))).1
        = RemindResult.ok 1
    ∧ (sonia_remind_me 0 [] ("m") (some 0) (some ("2030-01-01 00:00"))).2
        = [{ id := 1, task_id := none, contact := telegramUser,
             channel := "telegram", message := "üîî Reminder: m",
             remind_at := "2030-01-01 00:00", sent := false }]
    ∧ toISOMinute (0 + 0 * 60000) = "1970-01-01 00:00"
    ∧ (("2030-01-01 00:00" : String) ≠ "1970-01-01 00:00") := by
  refine ⟨by decide, by decide, by decide, by decide⟩

/-- Claim C10 as amended: with a message and a nonzero `in_minutes`,
`sonia_remind_me` does not fail even when `at_time` is also supplied:
`in_minutes` takes precedence, `at_time` is ignored, and the created row's
`remind_at` is the current time plus `in_minutes` minutes rendered in UTC
at minute precision by `toISOMinute` ('YYYY-MM-DD HH:MM'). -/
theorem c10_amended_nonzero_minutes :
    ∀ (nowMs : Nat) (db : Db) (message : String) (k : Nat) (t : Option String),
    message ≠ "" → k ≠ 0 →
    sonia_remind_me nowMs db message (some k) t
      = (RemindResult.ok (nextId db),
         db ++ [{ id := nextId db, task_id := none, contact := telegramUser,
                  channel := "telegram",
                  message := "üîî Reminder: " ++ message,
                  remind_at := toISOMinute (nowMs + k * 60000), sent := false }]) := by
  intro nowMs db message k t hm hk
  have h1 : jsTruthyNat (some k) = true := by simp [jsTruthyNat, hk]
  simp only [sonia_remind_me]
  rw [if_neg hm, if_pos h1,
      set_follow_up_ok_remind db ("üîî Reminder: " ++ message)
        (toISOMinute (nowMs + ((some k).getD 0) * 60000))
        (toISOMinute_ne_empty _) (tag_append_ne_empty message)]
  rfl

/-- Witness for C10 (amended) at a concrete call with both time
specifications supplied. -/
theorem c10_witness :
    (("ping" : String) ≠ "") ∧ ((3 : Nat) ≠ 0)
    ∧ sonia_remind_me 60000 [] ("ping") (some 3) (some ("2030-01-01 00:00"))
        = (RemindResult.ok (nextId ([] : Db)),
           ([] : Db) ++ [{ id := nextId ([] : Db), task_id := none,
                           contact := telegramUser, channel := "telegram",
                           message := "üîî Reminder: " ++ "ping",
                           remind_at := toISOMinute (60000 + 3 * 60000),
                           sent := false }]) :=
  ⟨by decide, by decide,
    c10_amended_nonzero_minutes 60000 [] ("ping") 3 (some ("2030-01-01 00:00"))
      (by decide) (by decide)⟩
